import Mathlib

/-!
Shallow embedding of the mycroft weather skill (kpustka/skill-weather).

Sources embedded here:
  - src/source/weather_config.py  : unit resolution (WeatherConfig)
  - src/source/weather_report.py  : Wind speed, strength, direction
  - src/util.py and src/__init__.py : period-of-day bucketing
  - src/__init__.py : requested-unit extraction, condition-dialog selection,
    speakable day, contiguous-sequence compression, api error dispatch
  - src/source/api.py and src/owmapi.py : location lookup with retry

Provider floating-point payload values are modelled as rationals; external
collaborators (vocabulary matching, the dialog-template registry, nice_date,
translation, the HTTP provider) are passed in as explicit parameters.
-/

namespace WeatherSkill

/-- Constant from src/source/weather_config.py. -/
def FAHRENHEIT : String := "fahrenheit"

/-- Constant from src/source/weather_config.py. -/
def CELSIUS : String := "celsius"

/-- Constant from src/source/weather_config.py. -/
def METRIC : String := "metric"

/-- Constant from src/source/weather_config.py. -/
def METERS_PER_SECOND : String := "meters per second"

/-- Constant from src/source/weather_config.py. -/
def MILES_PER_HOUR : String := "miles per hour"

/-- Python str.capitalize: first character upper-cased, the rest lower-cased. -/
def py_capitalize (s : String) : String :=
  (s.take 1).toUpper ++ (s.drop 1).toLower

/-- WeatherConfig.temperature_unit (src/source/weather_config.py lines 40-60).
The per-skill setting is the settings dictionary entry "units" (an Option,
since dict.get returns None when absent); the system measurement system is
core_config["system_unit"].  When the setting names neither unit, the cached
field stays None. -/
def temperature_unit (settings_units : Option String) (system_unit : String) :
    Option String :=
  match settings_units with
  | none =>
      if system_unit = METRIC then some CELSIUS else some FAHRENHEIT
  | some unit_from_settings =>
      if unit_from_settings.toLower = FAHRENHEIT then some FAHRENHEIT
      else if unit_from_settings.toLower = CELSIUS then some CELSIUS
      else none

/-- WeatherConfig.speed_unit (src/source/weather_config.py lines 25-38). -/
def speed_unit (system_unit : Option String) : String :=
  if system_unit = some METRIC then METERS_PER_SECOND else MILES_PER_HOUR

/-- WeatherSkill._get_requested_unit (src/__init__.py lines 1327-1344),
line by line.  The local intent_unit is initialised to None and the guard
tests intent_unit (not message_unit) before the vocabulary match, so the
match branch is dead code.  voc_match abstracts MycroftSkill.voc_match on
the message "Unit" slot against the Fahrenheit vocabulary. -/
def get_requested_unit (voc_match : Option String → String → Bool)
    (message_data_unit : Option String) : Option String :=
  let intent_unit : Option String := none
  let intent_unit : Option String :=
    if intent_unit.isSome then
      if voc_match message_data_unit (py_capitalize FAHRENHEIT) then some FAHRENHEIT
      else some CELSIUS
    else intent_unit
  intent_unit

/-- Unit resolution as performed by WeatherSkill.__get_temperature
(src/__init__.py line 1391): the per-query unit if present, otherwise the
config unit. -/
def effective_unit (voc_match : Option String → String → Bool)
    (message_data_unit : Option String)
    (settings_units : Option String) (system_unit : String) : Option String :=
  match get_requested_unit voc_match message_data_unit with
  | some u => some u
  | none => temperature_unit settings_units system_unit

/-- to_time_period (src/util.py lines 63-79) and the identical
WeatherSkill.__to_time_period (src/__init__.py lines 1455-1471):
period starts as None and each range test overwrites it. -/
def to_time_period (hour : Nat) : Option String :=
  let period : Option String := none
  let period := if 1 ≤ hour ∧ hour < 5 then some "early morning" else period
  let period := if 5 ≤ hour ∧ hour < 12 then some "morning" else period
  let period := if 12 ≤ hour ∧ hour < 17 then some "afternoon" else period
  let period := if 17 ≤ hour ∧ hour < 20 then some "evening" else period
  let period := if 20 ≤ hour ∨ hour < 1 then some "overnight" else period
  period

/-- Wind payload (src/source/weather_report.py): raw provider speed in m/s,
optional direction degrees, and the configured speed unit. -/
structure Wind where
  raw_speed : ℚ
  deg : Option ℚ
  speed_unit : String

/-- Wind.speed (src/source/weather_report.py lines 26-34): the raw speed,
multiplied by 2.23694 when the configured unit is miles per hour, rounded. -/
def Wind.speed (w : Wind) : ℤ :=
  let s := w.raw_speed
  let s := if w.speed_unit = MILES_PER_HOUR then s * 2.23694 else s
  round s

/-- Wind.strength (src/source/weather_report.py lines 36-46): fixed
thresholds on the raw (unconverted) provider speed. -/
def Wind.strength (w : Wind) : String :=
  if w.raw_speed ≤ 2.2352 then "light"
  else if w.raw_speed ≤ 6.7056 then "medium"
  else "hard"

/-- WIND_DIRECTION_CONVERSION (src/source/weather_report.py lines 5-14). -/
def WIND_DIRECTION_CONVERSION : List (ℚ × String) :=
  [(22.5, "N"), (67.5, "NE"), (112.5, "E"), (157.5, "SE"),
   (202.5, "S"), (247.5, "SW"), (292.5, "W"), (337.5, "NW")]

/-- The for-loop inside Wind.direction: the first table entry whose boundary
strictly exceeds the degree wins; None when the loop never breaks. -/
def find_direction : List (ℚ × String) → ℚ → Option String
  | [], _ => none
  | (min_degree, dir) :: rest, degree =>
      if degree < min_degree then some dir else find_direction rest degree

/-- Wind.direction (src/source/weather_report.py lines 48-60): None when the
payload has no "deg" entry; "N" at or above 337.5; otherwise the table scan. -/
def Wind.direction (w : Wind) : Option String :=
  match w.deg with
  | none => none
  | some degree =>
      if 337.5 ≤ degree then some "N"
      else find_direction WIND_DIRECTION_CONVERSION degree

/-- WeatherSkill.__get_seqs_from_list (src/__init__.py lines 1360-1385),
as a loop over the list with one element of lookahead, carrying the state
(current_seq, seq_nums, seq_active). -/
def seqs_loop : List ℤ → List ℤ → List (List ℤ) → Bool → List (List ℤ)
  | [], _, seq_nums, _ => seq_nums
  | [day], current_seq, seq_nums, seq_active =>
      if seq_active then seq_nums ++ [current_seq ++ [day]] else seq_nums
  | day :: next :: rest, current_seq, seq_nums, seq_active =>
      if next = day + 1 then
        seqs_loop (next :: rest) (current_seq ++ [day]) seq_nums true
      else if seq_active then
        seqs_loop (next :: rest) [] (seq_nums ++ [current_seq ++ [day]]) false
      else
        seqs_loop (next :: rest) current_seq seq_nums seq_active

/-- WeatherSkill.__get_seqs_from_list entry point. -/
def get_seqs_from_list (nums : List ℤ) : List (List ℤ) :=
  seqs_loop nums [] [] false

/-- The report fields consulted by WeatherSkill.__select_condition_dialog:
the detected condition text and the optional day and time labels. -/
structure Report where
  condition : String
  time : Option String
  day : Option String

/-- WeatherSkill.__select_condition_dialog (src/__init__.py lines 1118-1159).
voc_match abstracts MycroftSkill.voc_match; templates abstracts the keys of
dialog_renderer.templates; has_location is whether "Location" is in
message.data; report is None when population failed. -/
def select_condition_dialog (voc_match : String → String → Bool)
    (templates : List String) (has_location : Bool)
    (report : Option Report) (noun : String) (exp : Option String) : String :=
  match report with
  | none => "do not know"
  | some r =>
      let e := exp.getD noun
      let alternative_voc := py_capitalize noun ++ "Alternatives"
      let dialog :=
        if voc_match r.condition (py_capitalize e) then
          "affirmative.condition"
        else if r.time.isSome then
          if voc_match r.condition alternative_voc then "cond.alternative"
          else "no.cond.predicted"
        else if voc_match r.condition alternative_voc then
          e.toLower ++ ".alternative"
        else
          "no." ++ noun.toLower ++ ".predicted"
      let dialog := if has_location then dialog else "local." ++ dialog
      let dialog := if r.day.isSome then "forecast." ++ dialog else dialog
      let dialog :=
        if r.time.isSome ∧ ("at.time." ++ dialog) ∈ templates then
          "at.time." ++ dialog
        else dialog
      dialog

/-- One of the base dialog names producible by __select_condition_dialog
before prefixing: the affirmative, the two alternative forms, and the two
negative predictions. -/
def condition_lineage (noun : String) (e : String) (d : String) : Prop :=
  d = "affirmative.condition" ∨ d = "cond.alternative" ∨
  d = e.toLower ++ ".alternative" ∨ d = "no.cond.predicted" ∨
  d = "no." ++ noun.toLower ++ ".predicted"

/-- WeatherSkill.__to_day (src/__init__.py lines 1422-1442).  nice_date and
the translated "on.date" preface are external and passed in; days_diff is
(when.date() - now.date()).days.  Shortening takes the text before the
first comma, as speakable_date.split(chr 44)[0] does. -/
def to_day (nice_date : String) (on_date : String) (days_diff : ℤ)
    (preface : Bool) : String :=
  let speakable_date := nice_date
  let speakable_date :=
    if preface ∧ (-1 > days_diff ∨ days_diff > 1) then
      on_date ++ " " ++ speakable_date
    else speakable_date
  let speakable_date :=
    if days_diff ≤ 6 then (speakable_date.splitOn ",").headD speakable_date
    else speakable_date
  speakable_date

/-- The errors caught around weather_api calls (src/__init__.py): the api
wrapper raises LocationNotFoundError, requests raises HTTPError carrying a
response status code. -/
inductive ApiError where
  | locationNotFound
  | httpError (status_code : Nat)
deriving DecidableEq

/-- The observable side effect of the error handler: a spoken dialog
(optionally with data) or a message-bus emission. -/
inductive SkillEffect where
  | speakDialog (name : String)
  | speakDialogWith (name : String) (data : List (String × String))
  | emitMessage (msg_type : String)
deriving DecidableEq

/-- WeatherSkill._report_no_data (src/__init__.py lines 1411-1420). -/
def report_no_data (data : Option (List (String × String))) : SkillEffect :=
  match data with
  | none => SkillEffect.speakDialog "cant.get.forecast"
  | some d => SkillEffect.speakDialogWith "no.forecast" d

/-- WeatherSkill.__api_error (src/__init__.py lines 1402-1409). -/
def api_error (e : ApiError) : SkillEffect :=
  match e with
  | ApiError.locationNotFound => SkillEffect.speakDialog "location.not.found"
  | ApiError.httpError code =>
      if code = 401 then SkillEffect.emitMessage "mycroft.not.paired"
      else report_no_data none

/-- What one provider request yields: a parsed payload or an HTTPError with
a status code. -/
inductive ProviderResponse (α : Type) where
  | payload (value : α)
  | httpError (status_code : Nat)

/-- How a lookup settles: a result (with the possibly shortened name), a
LocationNotFoundError, or a re-raised HTTPError. -/
inductive LookupOutcome (α : Type) where
  | success (value : α) (name : List String)
  | locationNotFound
  | httpFailure (status_code : Nat)

/-- True when the lookup returned a result or raised LocationNotFoundError
(rather than re-raising an HTTP error). -/
def settled {α : Type} : LookupOutcome α → Bool
  | LookupOutcome.success _ _ => true
  | LookupOutcome.locationNotFound => true
  | LookupOutcome.httpFailure _ => false

/-- OWMApi.weather_at_location (src/source/api.py lines 128-143 and
src/owmapi.py lines 141-153).  The location name is modelled as its list of
words; the empty name raises immediately; a 404 retries with the last word
removed (name.split()[:-1]); any other HTTPError is re-raised.  fuel bounds
the number of provider requests; none means the bound was exhausted. -/
def weather_at_location {α : Type} (provider : List String → ProviderResponse α) :
    Nat → List String → Option (LookupOutcome α)
  | 0, _ => none
  | _ + 1, [] => some LookupOutcome.locationNotFound
  | fuel + 1, w :: ws =>
      match provider (w :: ws) with
      | ProviderResponse.payload v => some (LookupOutcome.success v (w :: ws))
      | ProviderResponse.httpError code =>
          if code = 404 then
            weather_at_location provider fuel (w :: ws).dropLast
          else some (LookupOutcome.httpFailure code)

/-- OWMApi._daily_forecast_at_location (src/source/api.py lines 175-196 and
src/owmapi.py lines 179-197): a while loop over name while it is nonempty;
a 404 removes the last word; a non-404 HTTPError is swallowed and the loop
retries with the name unchanged; an empty name exits the loop and raises
LocationNotFoundError.  fuel bounds the loop iterations. -/
def daily_forecast_at_location {α : Type}
    (provider : List String → ProviderResponse α) :
    Nat → List String → Option (LookupOutcome α)
  | 0, _ => none
  | _ + 1, [] => some LookupOutcome.locationNotFound
  | fuel + 1, w :: ws =>
      match provider (w :: ws) with
      | ProviderResponse.payload v => some (LookupOutcome.success v (w :: ws))
      | ProviderResponse.httpError code =>
          if code = 404 then
            daily_forecast_at_location provider fuel (w :: ws).dropLast
          else
            daily_forecast_at_location provider fuel (w :: ws)

end WeatherSkill

namespace WeatherSkill

/-- C1: the spec claims explicit per-query "fahrenheit" overrides the metric
system default (override > stored setting > system default), and that with
no explicit unit a metric default yields celsius.  The second half holds,
but _get_requested_unit initialises intent_unit to None and then guards on
intent_unit instead of message_unit, so the vocabulary match is dead code
and the function returns None for every message, contradicting its own
docstring: with a metric default the effective unit is celsius even when
the utterance explicitly requests fahrenheit. -/
theorem requested_unit_dead_code :
    (∀ vm mu, get_requested_unit vm mu = none) ∧
    (∀ vm, effective_unit vm none none METRIC = some CELSIUS) ∧
    (∀ vm, effective_unit vm (some FAHRENHEIT) none METRIC = some CELSIUS) :=
  ⟨fun _ _ => rfl, fun _ => rfl, fun _ => rfl⟩

/-- C3: the period-of-day mapping is total over hours 0-23 and yields
exactly the five buckets claimed (early morning 1-4, morning 5-11,
afternoon 12-16, evening 17-19, overnight 20-23 and 0); the None branch
that would log an internal error is unreachable. -/
theorem to_time_period_buckets (h : Fin 24) :
    to_time_period h.val =
      some (if 1 ≤ h.val ∧ h.val ≤ 4 then "early morning"
        else if 5 ≤ h.val ∧ h.val ≤ 11 then "morning"
        else if 12 ≤ h.val ∧ h.val ≤ 16 then "afternoon"
        else if 17 ≤ h.val ∧ h.val ≤ 19 then "evening"
        else "overnight") ∧
    to_time_period h.val ≠ none := by
  revert h
  decide

/-- C4: wind strength is light exactly when the raw provider speed is at
most 2.2352, medium exactly when it is above 2.2352 and at most 6.7056,
hard otherwise; and the classification ignores the configured speed unit
(the MPH conversion inside Wind.speed never touches it). -/
theorem wind_strength_thresholds (w : Wind) :
    (w.strength = "light" ↔ w.raw_speed ≤ 2.2352) ∧
    (w.strength = "medium" ↔ 2.2352 < w.raw_speed ∧ w.raw_speed ≤ 6.7056) ∧
    (w.strength = "hard" ↔ 6.7056 < w.raw_speed) ∧
    (∀ u : String, Wind.strength ⟨w.raw_speed, w.deg, u⟩ = w.strength) := by
  obtain ⟨s, dg, u0⟩ := w
  by_cases h1 : s ≤ (2.2352 : ℚ)
  · have e : Wind.strength ⟨s, dg, u0⟩ = "light" := by
      simp [Wind.strength, h1]
    refine ⟨?_, ?_, ?_, fun u => rfl⟩
    · rw [e]; simp [h1]
    · rw [e]
      constructor
      · intro hh; exact absurd hh (by decide)
      · rintro ⟨a, _⟩; linarith
    · rw [e]
      constructor
      · intro hh; exact absurd hh (by decide)
      · intro a; linarith
  · by_cases h2 : s ≤ (6.7056 : ℚ)
    · have e : Wind.strength ⟨s, dg, u0⟩ = "medium" := by
        simp [Wind.strength, h1, h2]
      refine ⟨?_, ?_, ?_, fun u => rfl⟩
      · rw [e]
        constructor
        · intro hh; exact absurd hh (by decide)
        · intro hs; exact absurd hs h1
      · rw [e]
        exact ⟨fun _ => ⟨not_le.mp h1, h2⟩, fun _ => rfl⟩
      · rw [e]
        constructor
        · intro hh; exact absurd hh (by decide)
        · intro a; exact absurd a (not_lt.mpr h2)
    · have e : Wind.strength ⟨s, dg, u0⟩ = "hard" := by
        simp [Wind.strength, h1, h2]
      refine ⟨?_, ?_, ?_, fun u => rfl⟩
      · rw [e]
        constructor
        · intro hh; exact absurd hh (by decide)
        · intro hs; exact absurd hs h1
      · rw [e]
        constructor
        · intro hh; exact absurd hh (by decide)
        · rintro ⟨_, hb⟩; exact absurd hb h2
      · rw [e]
        exact ⟨fun _ => not_le.mp h2, fun _ => rfl⟩

/-- C7: the contiguous-run compression applied to [0, 1, 2, 5, 6] yields
exactly the runs [0, 1, 2] and [5, 6], in that order. -/
theorem get_seqs_example :
    get_seqs_from_list [0, 1, 2, 5, 6] = [[0, 1, 2], [5, 6]] := by
  rfl

/-- C8: a LocationNotFoundError speaks the location-not-found dialog; a 401
HTTP error emits the re-pairing message and speaks nothing; every other
HTTP error speaks the generic no-data dialog. -/
theorem api_error_dispatch :
    api_error ApiError.locationNotFound =
      SkillEffect.speakDialog "location.not.found" ∧
    api_error (ApiError.httpError 401) =
      SkillEffect.emitMessage "mycroft.not.paired" ∧
    (∀ d, api_error (ApiError.httpError 401) ≠ SkillEffect.speakDialog d) ∧
    (∀ d data,
      api_error (ApiError.httpError 401) ≠ SkillEffect.speakDialogWith d data) ∧
    (∀ code, code ≠ 401 →
      api_error (ApiError.httpError code) =
        SkillEffect.speakDialog "cant.get.forecast") := by
  refine ⟨rfl, rfl, fun d => by simp [api_error], fun d data => by simp [api_error],
    fun code hc => ?_⟩
  simp [api_error, report_no_data, hc]

/-- Witness for C8 at status codes 500 and 401. -/
theorem api_error_dispatch_witness :
    api_error (ApiError.httpError 500) =
      SkillEffect.speakDialog "cant.get.forecast" ∧
    api_error (ApiError.httpError 401) ≠
      SkillEffect.speakDialog "cant.get.forecast" :=
  ⟨api_error_dispatch.2.2.2.2 500 (by decide),
   api_error_dispatch.2.2.1 "cant.get.forecast"⟩

set_option linter.unusedVariables false in
set_option maxHeartbeats 1000000 in
/-- C5: for degrees in [0, 360), exactly 337.5 and above maps to "N", and
otherwise the first table boundary strictly exceeding the degree decides
the direction, giving the eight-bucket partition of the circle. -/
theorem wind_direction_buckets (w : Wind) (d : ℚ) (hdeg : w.deg = some d)
    (h0 : 0 ≤ d) (h360 : d < 360) :
    w.direction = some (
      if d < 22.5 then "N" else if d < 67.5 then "NE"
      else if d < 112.5 then "E" else if d < 157.5 then "SE"
      else if d < 202.5 then "S" else if d < 247.5 then "SW"
      else if d < 292.5 then "W" else if d < 337.5 then "NW" else "N") := by
  simp only [Wind.direction, hdeg, WIND_DIRECTION_CONVERSION, find_direction]
  split_ifs <;> first | rfl | (exfalso; linarith)

/-- Witness for C5 at 45 degrees. -/
theorem wind_direction_buckets_witness :
    Wind.direction ⟨0, some 45, METERS_PER_SECOND⟩ = some "NE" := by
  have h := wind_direction_buckets ⟨0, some 45, METERS_PER_SECOND⟩ 45 rfl
    (by norm_num) (by norm_num)
  rw [h]
  norm_num

set_option maxHeartbeats 1000000 in
/-- C10: with no "deg" entry in the wind payload the direction is None, and
for any degrees value in [0, 360) the direction is never None. -/
theorem wind_direction_none_iff (w : Wind) :
    (w.deg = none → w.direction = none) ∧
    (∀ d : ℚ, w.deg = some d → 0 ≤ d → d < 360 → w.direction ≠ none) := by
  constructor
  · intro h
    simp [Wind.direction, h]
  · intro d hd h0 h360
    simp only [Wind.direction, hd, WIND_DIRECTION_CONVERSION, find_direction]
    split_ifs <;> first | exact Option.some_ne_none _ | (exfalso; linarith)

/-- Witness for C10: a payload without degrees and one with 10 degrees. -/
theorem wind_direction_none_iff_witness :
    Wind.direction ⟨3, none, MILES_PER_HOUR⟩ = none ∧
    Wind.direction ⟨3, some 10, MILES_PER_HOUR⟩ ≠ none :=
  ⟨(wind_direction_none_iff ⟨3, none, MILES_PER_HOUR⟩).1 rfl,
   (wind_direction_none_iff ⟨3, some 10, MILES_PER_HOUR⟩).2 10 rfl
     (by norm_num) (by norm_num)⟩

/-- C6: with prefacing enabled, day offsets of exactly -1, 0 and +1 omit
the "on date" preface and every other offset includes it; the text is
shortened to its part before the first comma exactly when the offset is at
most 6 days. -/
theorem to_day_preface_rule (nd od : String) (d : ℤ) :
    to_day nd od d true =
      (if -1 ≤ d ∧ d ≤ 1 then
        (if d ≤ 6 then (nd.splitOn ",").headD nd else nd)
      else
        (if d ≤ 6 then
          (((od ++ " " ++ nd).splitOn ",").headD (od ++ " " ++ nd))
        else od ++ " " ++ nd)) := by
  by_cases h : -1 ≤ d ∧ d ≤ 1
  · have h2 : ¬(-1 > d ∨ d > 1) := by omega
    simp [to_day, h, h2]
  · have h2 : (-1 > d ∨ d > 1) := by omega
    simp [to_day, h, h2]

/-- Appending to the empty string is the identity. -/
lemma string_empty_append (s : String) : "" ++ s = s := rfl

/-- C2: for a populated report the selected condition dialog is one of the
four lineages, carries the "local." tag exactly when the message has no
explicit location and the "forecast." tag exactly when the report has a
day, and takes the "at.time." variant exactly when the report has a
time-of-day and that prefixed template is registered. -/
theorem condition_dialog_shape (vm : String → String → Bool) (ts : List String)
    (has_location : Bool) (r : Report) (noun : String) (exp : Option String) :
    ∃ base, condition_lineage noun (exp.getD noun) base ∧
      select_condition_dialog vm ts has_location (some r) noun exp =
        (if r.time.isSome ∧
            ("at.time." ++ ((if r.day.isSome then "forecast." else "") ++
              ((if has_location then "" else "local.") ++ base))) ∈ ts then
          "at.time." ++ ((if r.day.isSome then "forecast." else "") ++
            ((if has_location then "" else "local.") ++ base))
        else ((if r.day.isSome then "forecast." else "") ++
          ((if has_location then "" else "local.") ++ base))) := by
  refine ⟨if vm r.condition (py_capitalize (exp.getD noun)) then
      "affirmative.condition"
    else if r.time.isSome then
      (if vm r.condition (py_capitalize noun ++ "Alternatives") then
        "cond.alternative"
      else "no.cond.predicted")
    else if vm r.condition (py_capitalize noun ++ "Alternatives") then
      (exp.getD noun).toLower ++ ".alternative"
    else "no." ++ noun.toLower ++ ".predicted", ?_, ?_⟩
  · unfold condition_lineage
    split_ifs <;> tauto
  · simp only [select_condition_dialog]
    cases hL : has_location <;> cases hD : r.day.isSome <;>
      simp only [hL, hD, Bool.false_eq_true, if_false, if_true, ite_true,
        ite_false, string_empty_append]

/-- Fuel-indexed progress lemma for weather_at_location: when every error
response is a 404, one unit of fuel per word plus one settles the lookup
in a result or a LocationNotFoundError. -/
lemma weather_at_location_settles {α : Type}
    (provider : List String → ProviderResponse α)
    (h404 : ∀ ws code, provider ws = ProviderResponse.httpError code → code = 404) :
    ∀ fuel words, List.length words < fuel →
      ∃ r, weather_at_location provider fuel words = some r ∧ settled r = true := by
  intro fuel
  induction fuel with
  | zero => intro words h; omega
  | succ n ih =>
    intro words h
    cases words with
    | nil => exact ⟨LookupOutcome.locationNotFound, rfl, rfl⟩
    | cons w ws =>
      cases hp : provider (w :: ws) with
      | payload v =>
          refine ⟨LookupOutcome.success v (w :: ws), ?_, rfl⟩
          simp [weather_at_location, hp]
      | httpError code =>
          have hc : code = 404 := h404 _ _ hp
          subst hc
          have hlen : List.length ((w :: ws).dropLast) < n := by
            simp only [List.length_dropLast, List.length_cons] at *
            omega
          obtain ⟨r, hr, hs⟩ := ih (w :: ws).dropLast hlen
          refine ⟨r, ?_, hs⟩
          simp [weather_at_location, hp, hr]

/-- Fuel-indexed progress lemma for _daily_forecast_at_location under
404-only errors. -/
lemma daily_forecast_settles {α : Type}
    (provider : List String → ProviderResponse α)
    (h404 : ∀ ws code, provider ws = ProviderResponse.httpError code → code = 404) :
    ∀ fuel words, List.length words < fuel →
      ∃ r, daily_forecast_at_location provider fuel words = some r ∧
        settled r = true := by
  intro fuel
  induction fuel with
  | zero => intro words h; omega
  | succ n ih =>
    intro words h
    cases words with
    | nil => exact ⟨LookupOutcome.locationNotFound, rfl, rfl⟩
    | cons w ws =>
      cases hp : provider (w :: ws) with
      | payload v =>
          refine ⟨LookupOutcome.success v (w :: ws), ?_, rfl⟩
          simp [daily_forecast_at_location, hp]
      | httpError code =>
          have hc : code = 404 := h404 _ _ hp
          subst hc
          have hlen : List.length ((w :: ws).dropLast) < n := by
            simp only [List.length_dropLast, List.length_cons] at *
            omega
          obtain ⟨r, hr, hs⟩ := ih (w :: ws).dropLast hlen
          refine ⟨r, ?_, hs⟩
          simp [daily_forecast_at_location, hp, hr]

/-- C9: when every error encountered is a "not found" 404 (the case the
retry strategy is about), each retry removes the last word, so one request
per word plus one settles both lookup functions in a result or a
LocationNotFoundError, and the empty name raises LocationNotFoundError
without any request. -/
theorem lookup_retry_terminates {α : Type}
    (provider : List String → ProviderResponse α) (words : List String)
    (h404 : ∀ ws code, provider ws = ProviderResponse.httpError code → code = 404) :
    (∃ r, weather_at_location provider (List.length words + 1) words = some r ∧
      settled r = true) ∧
    (∃ r, daily_forecast_at_location provider (List.length words + 1) words =
      some r ∧ settled r = true) ∧
    weather_at_location provider 1 [] = some LookupOutcome.locationNotFound ∧
    daily_forecast_at_location provider 1 [] =
      some LookupOutcome.locationNotFound :=
  ⟨weather_at_location_settles provider h404 (List.length words + 1) words
      (Nat.lt_succ_self _),
   daily_forecast_settles provider h404 (List.length words + 1) words
      (Nat.lt_succ_self _),
   rfl, rfl⟩

/-- Witness for C9: a provider answering 404 to everything, on a two-word
name. -/
theorem lookup_retry_terminates_witness :
    (∃ r, weather_at_location
        (fun _ => (ProviderResponse.httpError 404 : ProviderResponse Nat)) 3
        ["san", "francisco"] = some r ∧ settled r = true) ∧
    weather_at_location
        (fun _ => (ProviderResponse.httpError 404 : ProviderResponse Nat)) 3
        ["san", "francisco"] = some LookupOutcome.locationNotFound := by
  have h := lookup_retry_terminates
    (fun _ => (ProviderResponse.httpError 404 : ProviderResponse Nat))
    ["san", "francisco"]
    (fun ws code hc => by
      injection hc with h1
      omega)
  exact ⟨h.1, rfl⟩

end WeatherSkill
